import Mathlib

/-!
Verification of the flight-route dashboard (`app.py`).

The dashboard is a linear pipeline: load data (MongoDB with CSV fallback),
filter by the sidebar's Year/Type multiselects, aggregate with pandas, and
render metric tiles, charts, a ranked table and a map.  The embedding below
models the DataFrame as a `List Row`, each pandas operation as a Lean
function on such lists, and Streamlit's message/rendering behaviour as
explicit message logs and block-result lists.
-/

/-- One flight-route record, the single entity of the data model
(columns of the DataFrame loaded in `load_data`).  The `Type` column is
named `typ` because `Type` is reserved in Lean; coordinates are modelled
as exact rationals (their values are only ever used as grouping keys and
in midpoint arithmetic, never compared with float tolerance). -/
structure Row where
  Route : String
  From : String
  To : String
  From_Country : String
  Year : Nat
  typ : String
  Passengers : Nat
  From_Lat : ℚ
  From_Lon : ℚ
  To_Lat : ℚ
  To_Lon : ℚ
deriving DecidableEq, Repr

/-- `filtered_df = df[df["Year"].isin(selected_year) & df["Type"].isin(selected_type)]`
(app.py line 60): keep rows whose Year is in the selected years and whose
Type is in the selected types. -/
def filtered_df (df : List Row) (selected_year : List Nat) (selected_type : List String) :
    List Row :=
  df.filter (fun r => decide (r.Year ∈ selected_year) && decide (r.typ ∈ selected_type))

/-- `total_passengers = filtered_df["Passengers"].sum()` (app.py line 65). -/
def total_passengers (rows : List Row) : Nat :=
  (rows.map Row.Passengers).sum

/-- `total_routes = len(filtered_df)` (app.py line 66). -/
def total_routes (rows : List Row) : Nat :=
  rows.length

/-- Sum of `Passengers` over the rows matching a Boolean predicate. -/
def sumWhere (rows : List Row) (p : Row → Bool) : Nat :=
  ((rows.filter p).map Row.Passengers).sum

/-- `filtered_df.groupby("From_Country")["Passengers"].sum()` (app.py line 67):
one `(country, summed Passengers)` entry per distinct `From_Country`.
pandas additionally sorts the group keys alphabetically; no property stated
about this pipeline depends on the relative order of distinct countries
(ties/ordering are explicitly left unspecified by the spec), so the model
keeps the `dedup` key order. -/
def countrySums (rows : List Row) : List (String × Nat) :=
  ((rows.map Row.From_Country).dedup).map
    (fun c => (c, sumWhere rows (fun r => decide (r.From_Country = c))))

/-- `Series.idxmax` over the tail, carrying the current best `(key, value)`:
keeps the first key attaining the maximum value. -/
def idxmaxAux (k : String) (v : Nat) : List (String × Nat) → String
  | [] => k
  | (k2, v2) :: rest => if v2 > v then idxmaxAux k2 v2 rest else idxmaxAux k v rest

/-- `top_country = filtered_df.groupby("From_Country")["Passengers"].sum().idxmax()`
(app.py line 67).  pandas `idxmax` raises `ValueError` on an empty series;
the error case is modelled as `none`.  The Key Metrics block has no
try/except around it, so `none` here means an uncaught exception. -/
def top_country (rows : List Row) : Option String :=
  match countrySums rows with
  | [] => none
  | (k, v) :: rest => some (idxmaxAux k v rest)

/-- The filtered subset is empty whenever the selected-years set is empty:
`isin` of an empty selection is all-false. -/
lemma filtered_df_nil_years (df : List Row) (ts : List String) :
    filtered_df df [] ts = [] := by
  simp [filtered_df]

/-- The filtered subset is empty whenever the selected-types set is empty. -/
lemma filtered_df_nil_types (df : List Row) (ys : List Nat) :
    filtered_df df ys [] = [] := by
  simp [filtered_df]

/-- Spec §8 scenario dataset: two records in Year 2020 / Type "A" with
Passengers 10 and 20, one record in Year 2021 / Type "B" with Passengers 5. -/
def exDf : List Row :=
  [⟨"R1", "F1", "T1", "C1", 2020, "A", 10, 1, 2, 3, 4⟩,
   ⟨"R2", "F2", "T2", "C2", 2020, "A", 20, 5, 6, 7, 8⟩,
   ⟨"R3", "F3", "T3", "C3", 2021, "B", 5, 9, 10, 11, 12⟩]

/-- Sanity check of the spec §8 scenario: filtering to Year 2020 and
Type "A" keeps the first two records, 30 passengers in total. -/
lemma exDf_scenario :
    total_passengers (filtered_df exDf [2020] ["A"]) = 30 ∧
      total_routes (filtered_df exDf [2020] ["A"]) = 2 ∧
      top_country exDf = some "C2" := by
  decide

/-- C1: for every dataset and selection pair, the filter returns only rows of
the original dataset, and every returned row's Year is among the selected
years and its Type among the selected types. -/
theorem filter_subset_and_matches (df : List Row) (ys : List Nat) (ts : List String) :
    ∀ r ∈ filtered_df df ys ts, r ∈ df ∧ r.Year ∈ ys ∧ r.typ ∈ ts := by
  intro r hr
  rw [filtered_df, List.mem_filter] at hr
  refine ⟨hr.1, ?_, ?_⟩
  · have := hr.2
    simp only [Bool.and_eq_true, decide_eq_true_eq] at this
    exact this.1
  · have := hr.2
    simp only [Bool.and_eq_true, decide_eq_true_eq] at this
    exact this.2

/-- C1 witness: on the spec scenario dataset with Year 2020 and Type "A"
selected, the first record is returned and satisfies the guarantees. -/
theorem filter_subset_and_matches_witness :
    (⟨"R1", "F1", "T1", "C1", 2020, "A", 10, 1, 2, 3, 4⟩ : Row) ∈ exDf ∧
      (2020 : Nat) ∈ [2020] ∧ "A" ∈ ["A"] := by
  have h := filter_subset_and_matches exDf [2020] ["A"]
    ⟨"R1", "F1", "T1", "C1", 2020, "A", 10, 1, 2, 3, 4⟩ (by decide)
  exact ⟨h.1, h.2.1, h.2.2⟩

/-- C8: an empty selection on either dimension yields an empty filtered
result, whatever the other dimension's selection is. -/
theorem filter_empty_selection (df : List Row) (ys : List Nat) (ts : List String) :
    filtered_df df [] ts = [] ∧ filtered_df df ys [] = [] :=
  ⟨filtered_df_nil_years df ts, filtered_df_nil_types df ys⟩

/-- C10: whenever the filtered result is empty, the Total Passengers metric
is 0 and the Total Routes metric is 0, both defined without error. -/
theorem empty_filter_metrics (df : List Row) (ys : List Nat) (ts : List String)
    (h : filtered_df df ys ts = []) :
    total_passengers (filtered_df df ys ts) = 0 ∧
      total_routes (filtered_df df ys ts) = 0 := by
  rw [h]
  exact ⟨rfl, rfl⟩

/-- C10 witness: the scenario dataset with no year selected. -/
theorem empty_filter_metrics_witness :
    total_passengers (filtered_df exDf [] ["A"]) = 0 ∧
      total_routes (filtered_df exDf [] ["A"]) = 0 :=
  empty_filter_metrics exDf [] ["A"] (by decide)

/-- C2: with an empty selected-years set the filtered frame is empty, and the
Top Origin Country computation `groupby("From_Country").sum().idxmax()`
errors (pandas raises `ValueError` on an empty series, modelled as `none`);
the Key Metrics block is not wrapped in try/except, so the exception is
uncaught and the claimed handled "no data" condition does not exist. -/
theorem top_country_errors_on_empty_years (df : List Row) (ts : List String) :
    top_country (filtered_df df [] ts) = none := by
  rw [filtered_df_nil_years]
  rfl

/-- A user-visible Streamlit message (`st.success` / `st.warning` / `st.error`). -/
inductive Msg
  | success : String → Msg
  | warning : String → Msg
  | error : String → Msg
deriving DecidableEq, Repr

/-- Environment of `load_data` (app.py lines 23-42): whether the MongoDB
connection and query succeed and what they return, and whether the fallback
CSV file `busist_flight.csv.csv` exists and what it parses to. -/
structure LoadEnv where
  mongoOk : Bool
  mongoData : List Row
  csvExists : Bool
  csvData : List Row

/-- `load_data` (app.py lines 23-42): try MongoDB first; on any exception
emit a warning and fall back to the CSV if it exists; if the CSV is also
absent emit an error and return `None`.  The result is the returned
DataFrame (or `none`) paired with the messages shown to the user. -/
def load_data (env : LoadEnv) : Option (List Row) × List Msg :=
  if env.mongoOk then
    (some env.mongoData, [Msg.success "Data loaded from MongoDB"])
  else if env.csvExists then
    (some env.csvData,
     [Msg.warning "Could not connect to MongoDB",
      Msg.success "Data loaded from CSV"])
  else
    (none,
     [Msg.warning "Could not connect to MongoDB",
      Msg.error "No data source available. Please ensure MongoDB is running or provide a CSV file."])

/-- Top-level control flow around `load_data` (app.py lines 45-47 and
258-259): if the loader returned a DataFrame the dashboard renders
(`if df is not None:` branch), otherwise a single additional error is shown
and nothing else renders.  Returns the full message log and whether the
dashboard body was rendered. -/
def app_run (env : LoadEnv) : List Msg × Bool :=
  match load_data env with
  | (some _, msgs) => (msgs, true)
  | (none, msgs) => (msgs ++ [Msg.error "Unable to load data for visualization."], false)

/-- Whether a message is an `st.error`. -/
def isErrorMsg : Msg → Bool
  | Msg.error _ => true
  | _ => false

/-- Number of user-visible error messages in a run. -/
def errorCount (env : LoadEnv) : Nat :=
  ((app_run env).1.filter isErrorMsg).length

/-- C4 counterexample: with MongoDB unreachable and the CSV absent the loader
does return `none` and nothing renders, but the user sees TWO error messages
(the loader's own `st.error` plus the top-level one), not exactly one. -/
theorem load_failure_two_errors_counterexample :
    (load_data ⟨false, [], false, []⟩).1 = none ∧
      (app_run ⟨false, [], false, []⟩).2 = false ∧
      errorCount ⟨false, [], false, []⟩ = 2 ∧
      ¬ errorCount ⟨false, [], false, []⟩ = 1 := by
  refine ⟨rfl, rfl, rfl, ?_⟩
  decide

/-- C4 amended: the loader attempts MongoDB first and returns its data on
success; on failure it falls back to the CSV when present; when both fail it
returns `none`, the dashboard body is suppressed (nothing renders), and
exactly two user-visible error messages are shown — one by the loader and
one by the presentation layer — rather than exactly one. -/
theorem load_fallback_and_failure (env : LoadEnv) :
    (env.mongoOk = true → load_data env = (some env.mongoData, [Msg.success "Data loaded from MongoDB"])) ∧
    (env.mongoOk = false → env.csvExists = true → (load_data env).1 = some env.csvData) ∧
    (env.mongoOk = false → env.csvExists = false →
      (load_data env).1 = none ∧ (app_run env).2 = false ∧ errorCount env = 2) := by
  refine ⟨fun h1 => ?_, fun h1 h2 => ?_, fun h1 h2 => ?_⟩
  · simp [load_data, h1]
  · simp [load_data, h1, h2]
  · refine ⟨?_, ?_, ?_⟩ <;>
      simp [load_data, app_run, errorCount, isErrorMsg, h1, h2]

/-- C4 witness: the amended theorem applied to the all-sources-down
environment and to a healthy-MongoDB environment. -/
theorem load_fallback_and_failure_witness :
    ((load_data ⟨false, exDf, false, []⟩).1 = none ∧
      (app_run ⟨false, exDf, false, []⟩).2 = false ∧
      errorCount ⟨false, exDf, false, []⟩ = 2) ∧
    load_data ⟨true, exDf, false, []⟩ =
      (some exDf, [Msg.success "Data loaded from MongoDB"]) :=
  ⟨(load_fallback_and_failure ⟨false, exDf, false, []⟩).2.2 rfl rfl,
   (load_fallback_and_failure ⟨true, exDf, false, []⟩).1 rfl⟩

/-- Outcome of one visual block of the dashboard body. -/
inductive BlockResult
  | rendered
  | inlineError
  | crashed
deriving DecidableEq, Repr

/-- A visual block: whether its code sits inside a `try/except` that shows
the error inline (`st.error(...)` in the `except` arm), and the condition on
the filtered data under which its computation raises. -/
abbrev Block := Bool × (List Row → Bool)

/-- Sequential Streamlit execution of the dashboard body: blocks run top to
bottom; a raising block inside `try/except` shows an inline error and
execution continues, a raising block outside any `try/except` crashes the
script, so no later block runs. -/
def runBlocks : List Block → List Row → List BlockResult
  | [], _ => []
  | (wrapped, raises) :: rest, d =>
    if raises d then
      if wrapped then BlockResult.inlineError :: runBlocks rest d
      else [BlockResult.crashed]
    else BlockResult.rendered :: runBlocks rest d

/-- Key Metrics block (app.py lines 63-70): NOT wrapped; raises on an empty
filtered frame (`idxmax` of an empty groupby). -/
def keyMetricsBlock : Block := (false, fun rows => rows.isEmpty)

/-- Data Table block (app.py lines 73-74): NOT wrapped; `st.dataframe` does
not raise on any well-typed frame. -/
def dataTableBlock : Block := (false, fun _ => false)

/-- Passenger Trends line chart (app.py lines 81-96): NOT wrapped;
`sns.lineplot` renders an empty axes on an empty frame without raising. -/
def lineChartBlock : Block := (false, fun _ => false)

/-- Top 5 Departure Countries bar chart (app.py lines 100-131): wrapped in
`try/except` with `st.error` in the `except` arm; `DataFrame.plot` raises
("no numeric data to plot") when the pivoted frame is empty. -/
def barChartBlock : Block := (true, fun rows => rows.isEmpty)

/-- Top 10 Busiest Routes table (app.py lines 134-137): NOT wrapped;
groupby/sort/head/`st.table` do not raise on any well-typed frame. -/
def topRoutesBlock : Block := (false, fun _ => false)

/-- Interactive map (app.py lines 141-257): wrapped in `try/except` with
`st.error` in the `except` arm.  `fit_bounds(None)` on an empty routes
group is accepted by folium, so the block itself does not raise on
well-typed input. -/
def mapBlock : Block := (true, fun _ => false)

/-- The dashboard body in source order (app.py lines 62-257). -/
def appBlocks : List Block :=
  [keyMetricsBlock, dataTableBlock, lineChartBlock, barChartBlock, topRoutesBlock, mapBlock]

/-- C3 counterexample: on an empty filtered dataset the unwrapped Key
Metrics block raises and the whole script crashes — no inline error is
shown and none of the five remaining blocks render, contradicting the
claim that every block is wrapped independently. -/
theorem block_isolation_counterexample :
    runBlocks appBlocks [] = [BlockResult.crashed] ∧
      BlockResult.inlineError ∉ runBlocks appBlocks [] ∧
      (runBlocks appBlocks []).length < appBlocks.length := by
  refine ⟨rfl, by decide, by decide⟩

/-- C3 amended: only the bar-chart and map blocks are wrapped in
`try/except`; the Key Metrics, data-table, line-chart and top-routes blocks
are not.  A failure in an unwrapped block halts the session: on an empty
filtered dataset the Key Metrics block raises and no block renders at all,
while on a non-empty filtered dataset all six blocks render. -/
theorem block_isolation_actual (rows : List Row) :
    appBlocks.map Prod.fst = [false, false, false, true, false, true] ∧
    (rows = [] → runBlocks appBlocks rows = [BlockResult.crashed]) ∧
    (rows ≠ [] → runBlocks appBlocks rows =
      [BlockResult.rendered, BlockResult.rendered, BlockResult.rendered,
       BlockResult.rendered, BlockResult.rendered, BlockResult.rendered]) := by
  refine ⟨rfl, fun h => by subst h; rfl, fun h => ?_⟩
  have hne : rows.isEmpty = false := by
    cases rows with
    | nil => exact absurd rfl h
    | cons a l => rfl
  simp [appBlocks, runBlocks, keyMetricsBlock, dataTableBlock, lineChartBlock,
    barChartBlock, topRoutesBlock, mapBlock, hne]

/-- C3 witness: the amended theorem applied to the empty dataset and to the
spec scenario dataset. -/
theorem block_isolation_actual_witness :
    runBlocks appBlocks [] = [BlockResult.crashed] ∧
      runBlocks appBlocks exDf =
        [BlockResult.rendered, BlockResult.rendered, BlockResult.rendered,
         BlockResult.rendered, BlockResult.rendered, BlockResult.rendered] :=
  ⟨(block_isolation_actual []).2.1 rfl,
   (block_isolation_actual exDf).2.2 (by decide)⟩

/-- `max(top_routes["Passengers"])` over the passenger counts of the
top-routes set (meaningful when the set is non-empty, as in the code's
guard). -/
def maxPassengers (l : List Nat) : Nat :=
  l.foldr max 0

/-- `line_weight = 2 + passenger_count / max(top_routes["Passengers"]) * 5
if not top_routes["Passengers"].empty else 2` (app.py line 181), computed in
exact rational arithmetic. -/
def line_weight (top : List Nat) (passenger_count : Nat) : ℚ :=
  if top.isEmpty then 2
  else 2 + (passenger_count : ℚ) / (maxPassengers top : ℚ) * 5

/-- Any member of a list is bounded by `maxPassengers`. -/
lemma le_maxPassengers {p : Nat} {l : List Nat} (h : p ∈ l) : p ≤ maxPassengers l := by
  induction l with
  | nil => cases h
  | cons a t ih =>
    rcases List.mem_cons.mp h with rfl | ht
    · exact Nat.le_max_left _ _
    · exact Nat.le_trans (ih ht) (Nat.le_max_right _ _)

/-- C7 counterexample: a route with 0 passengers can be in the top set
(Passengers is only required to be non-negative); its weight is exactly 2,
which is NOT in the claimed open-below interval (2, 7]. -/
theorem line_weight_counterexample :
    (0 : Nat) ∈ [10, 0] ∧ line_weight [10, 0] 0 = 2 ∧ ¬ (2 : ℚ) < line_weight [10, 0] 0 := by
  refine ⟨by decide, ?_, ?_⟩ <;> norm_num [line_weight, maxPassengers]

/-- C7 amended: for every route in a non-empty top set whose maximum
passenger count is positive, the weight equals `2 + (p / max) * 5` and lies
in the closed interval [2, 7] (the ratio is between 0 and 1; it reaches the
lower bound exactly when the route has 0 passengers); on the spec example
top set [100, 50, 10] the weight of the 50-passenger route is 4.5; on an
empty top set the weight defaults to 2. -/
theorem line_weight_bounds (top : List Nat) (p : Nat)
    (hp : p ∈ top) (hmax : 0 < maxPassengers top) :
    (line_weight top p = 2 + (p : ℚ) / (maxPassengers top : ℚ) * 5 ∧
      2 ≤ line_weight top p ∧ line_weight top p ≤ 7) ∧
    line_weight [100, 50, 10] 50 = 9 / 2 ∧
    (∀ q : Nat, line_weight [] q = 2) := by
  have hne : top.isEmpty = false := by
    cases top with
    | nil => cases hp
    | cons a t => rfl
  have hformula : line_weight top p = 2 + (p : ℚ) / (maxPassengers top : ℚ) * 5 := by
    simp [line_weight, hne]
  have hmaxq : (0 : ℚ) < (maxPassengers top : ℚ) := by exact_mod_cast hmax
  have hratio0 : (0 : ℚ) ≤ (p : ℚ) / (maxPassengers top : ℚ) :=
    div_nonneg (by positivity) (le_of_lt hmaxq)
  have hratio1 : (p : ℚ) / (maxPassengers top : ℚ) ≤ 1 := by
    rw [div_le_one hmaxq]
    exact_mod_cast le_maxPassengers hp
  refine ⟨⟨hformula, ?_, ?_⟩, ?_, fun q => rfl⟩
  · rw [hformula]; nlinarith
  · rw [hformula]; nlinarith
  · norm_num [line_weight, maxPassengers]

/-- C7 witness: the amended theorem applied to the spec example top set at
the maximal route (100 passengers, weight 7). -/
theorem line_weight_bounds_witness :
    (line_weight [100, 50, 10] 100 = 2 + (100 : ℚ) / ((maxPassengers [100, 50, 10] : Nat) : ℚ) * 5 ∧
      2 ≤ line_weight [100, 50, 10] 100 ∧ line_weight [100, 50, 10] 100 ≤ 7) ∧
    line_weight [100, 50, 10] 50 = 9 / 2 ∧
    (∀ q : Nat, line_weight [] q = 2) :=
  line_weight_bounds [100, 50, 10] 100 (by decide) (by decide)

/-- The distinct years of a row set, sorted ascending (pandas `groupby`
sorts its integer group keys ascending). -/
def sortedYears (rows : List Row) : List Nat :=
  List.insertionSort (fun a b => a ≤ b) (rows.map Row.Year).dedup

/-- `yearly_passengers = filtered_df.groupby("Year")["Passengers"].sum().reset_index()`
(app.py line 82): one `(Year, summed Passengers)` pair per distinct year,
years ascending. -/
def yearly_passengers (rows : List Row) : List (Nat × Nat) :=
  (sortedYears rows).map (fun y => (y, sumWhere rows (fun r => decide (r.Year = y))))

/-- The sorted distinct years are strictly increasing. -/
lemma sortedYears_pairwise_lt (rows : List Row) :
    List.Pairwise (· < ·) (sortedYears rows) := by
  have hsorted : List.Sorted (· ≤ ·) (sortedYears rows) :=
    List.sorted_insertionSort _ _
  have hnodup : (sortedYears rows).Nodup :=
    ((List.perm_insertionSort _ _).nodup_iff).mpr (List.nodup_dedup _)
  exact List.Sorted.lt_of_le hsorted hnodup

/-- Membership in the sorted distinct years matches membership in the
rows' Year column. -/
lemma mem_sortedYears (rows : List Row) (y : Nat) :
    y ∈ sortedYears rows ↔ y ∈ rows.map Row.Year := by
  rw [sortedYears, (List.perm_insertionSort _ _).mem_iff, List.mem_dedup]

/-- C9: the yearly trend has exactly one entry per distinct Year of the
filtered rows (its first components are strictly increasing, hence
duplicate-free and ascending), a year appears in it iff some filtered row
has that year, and each entry's second component is the sum of Passengers
over the rows of that year. -/
theorem yearly_trend_sorted_complete (rows : List Row) :
    List.Pairwise (fun a b => a.1 < b.1) (yearly_passengers rows) ∧
    (∀ y : Nat, y ∈ (yearly_passengers rows).map Prod.fst ↔ y ∈ rows.map Row.Year) ∧
    (∀ p ∈ yearly_passengers rows,
      p.2 = sumWhere rows (fun r => decide (r.Year = p.1))) := by
  refine ⟨?_, ?_, ?_⟩
  · rw [yearly_passengers, List.pairwise_map]
    exact sortedYears_pairwise_lt rows
  · intro y
    constructor
    · intro hy
      rw [List.mem_map] at hy
      obtain ⟨p, hp, rfl⟩ := hy
      simp only [yearly_passengers, List.mem_map] at hp
      obtain ⟨z, hz, rfl⟩ := hp
      exact (mem_sortedYears rows z).mp hz
    · intro hy
      refine List.mem_map.mpr ⟨(y, sumWhere rows (fun r => decide (r.Year = y))), ?_, rfl⟩
      simp only [yearly_passengers, List.mem_map]
      exact ⟨y, (mem_sortedYears rows y).mpr hy, rfl⟩
  · intro p hp
    simp only [yearly_passengers, List.mem_map] at hp
    obtain ⟨y, _, rfl⟩ := hp
    rfl

/-- C9 witness: on the spec scenario dataset restricted nowhere, the trend
is strictly ascending, 2020 appears in it, and the 2020 entry sums to 30. -/
theorem yearly_trend_sorted_complete_witness :
    List.Pairwise (fun a b => a.1 < b.1) (yearly_passengers exDf) ∧
      (2020 : Nat) ∈ exDf.map Row.Year ∧
      ((2020, 30) : Nat × Nat).2 = sumWhere exDf (fun r => decide (r.Year = ((2020, 30) : Nat × Nat).1)) := by
  have h := yearly_trend_sorted_complete exDf
  exact ⟨h.1, (h.2.1 2020).mp (by decide), h.2.2 (2020, 30) (by decide)⟩

/-- Descending order by a numeric measure: `a` precedes `b` when `b`'s
measure is at most `a`'s (pandas `sort_values(..., ascending=False)`). -/
abbrev byDesc {α : Type} (f : α → Nat) (a b : α) : Prop :=
  f b ≤ f a

instance {α : Type} (f : α → Nat) : IsTotal α (byDesc f) :=
  ⟨fun a b => Nat.le_total (f b) (f a)⟩

instance {α : Type} (f : α → Nat) : IsTrans α (byDesc f) :=
  ⟨fun _ _ _ hab hbc => Nat.le_trans hbc hab⟩

/-- Grouping key of the Top 10 Busiest Routes aggregation (app.py line 135):
`["Route", "From", "To", "From_Lat", "From_Lon", "To_Lat", "To_Lon"]`. -/
structure RouteKey where
  Route : String
  From : String
  To : String
  From_Lat : ℚ
  From_Lon : ℚ
  To_Lat : ℚ
  To_Lon : ℚ
deriving DecidableEq, Repr

/-- The grouping key of a row for the routes aggregation. -/
def routeKey (r : Row) : RouteKey :=
  ⟨r.Route, r.From, r.To, r.From_Lat, r.From_Lon, r.To_Lat, r.To_Lon⟩

/-- `route_data = filtered_df.groupby(["Route", "From", "To", "From_Lat",
"From_Lon", "To_Lat", "To_Lon"])["Passengers"].sum().reset_index()`
(app.py line 135): one `(key, summed Passengers)` entry per distinct key.
pandas sorts the group keys lexicographically; the subsequent
`sort_values("Passengers")` re-orders by passenger count anyway and the
spec leaves tie order unspecified, so the model keeps the `dedup` key
order. -/
def route_data (rows : List Row) : List (RouteKey × Nat) :=
  ((rows.map routeKey).dedup).map
    (fun k => (k, sumWhere rows (fun r => decide (routeKey r = k))))

/-- `route_data.sort_values("Passengers", ascending=False)` (app.py
line 136): the grouped routes sorted by summed Passengers descending. -/
def sorted_route_data (rows : List Row) : List (RouteKey × Nat) :=
  List.insertionSort (byDesc Prod.snd) (route_data rows)

/-- `top_routes = route_data.sort_values("Passengers", ascending=False).head(10)`
(app.py line 136). -/
def top_routes (rows : List Row) : List (RouteKey × Nat) :=
  (sorted_route_data rows).take 10

/-- C5: the Top 10 Busiest Routes table is sorted by summed Passengers
descending, has at most 10 entries, together with the dropped remainder it
is a permutation of the grouped route aggregates, and every kept entry has
at least as many passengers as every excluded entry. -/
theorem top_routes_sorted_top10 (rows : List Row) :
    List.Pairwise (fun a b : RouteKey × Nat => b.2 ≤ a.2) (top_routes rows) ∧
    (top_routes rows).length ≤ 10 ∧
    (top_routes rows ++ (sorted_route_data rows).drop 10).Perm (route_data rows) ∧
    (∀ x ∈ top_routes rows, ∀ y ∈ (sorted_route_data rows).drop 10, y.2 ≤ x.2) := by
  have hsorted : List.Sorted (byDesc (Prod.snd : RouteKey × Nat → Nat)) (sorted_route_data rows) :=
    List.sorted_insertionSort _ _
  have hsplit : sorted_route_data rows = top_routes rows ++ (sorted_route_data rows).drop 10 :=
    (List.take_append_drop 10 (sorted_route_data rows)).symm
  refine ⟨?_, ?_, ?_, ?_⟩
  · exact hsorted.sublist (List.take_sublist 10 _)
  · rw [top_routes]
    exact (List.length_take 10 _).le.trans (Nat.min_le_left _ _)
  · rw [← hsplit]
    exact List.perm_insertionSort _ _
  · have hpair : List.Pairwise (byDesc (Prod.snd : RouteKey × Nat → Nat))
        (sorted_route_data rows) := hsorted
    rw [hsplit, List.pairwise_append] at hpair
    exact fun x hx y hy => hpair.2.2 x hx y hy

/-- Twelve rows with twelve distinct route keys (distinguished by
`From_Lat`) and strictly decreasing passenger counts, so the top-10
truncation actually excludes two routes. -/
def wideDf : List Row :=
  [⟨"R", "F", "T", "C", 2020, "A", 120, 0, 0, 0, 0⟩,
   ⟨"R", "F", "T", "C", 2020, "A", 110, 1, 0, 0, 0⟩,
   ⟨"R", "F", "T", "C", 2020, "A", 100, 2, 0, 0, 0⟩,
   ⟨"R", "F", "T", "C", 2020, "A", 90, 3, 0, 0, 0⟩,
   ⟨"R", "F", "T", "C", 2020, "A", 80, 4, 0, 0, 0⟩,
   ⟨"R", "F", "T", "C", 2020, "A", 70, 5, 0, 0, 0⟩,
   ⟨"R", "F", "T", "C", 2020, "A", 60, 6, 0, 0, 0⟩,
   ⟨"R", "F", "T", "C", 2020, "A", 50, 7, 0, 0, 0⟩,
   ⟨"R", "F", "T", "C", 2020, "A", 40, 8, 0, 0, 0⟩,
   ⟨"R", "F", "T", "C", 2020, "A", 30, 9, 0, 0, 0⟩,
   ⟨"R", "F", "T", "C", 2020, "A", 20, 10, 0, 0, 0⟩,
   ⟨"R", "F", "T", "C", 2020, "A", 10, 11, 0, 0, 0⟩]

/-- C5 witness: on the twelve-route dataset the top-10 table is sorted
descending, retains ten routes, and its busiest kept route (120 passengers)
outranks an excluded route (10 passengers). -/
theorem top_routes_sorted_top10_witness :
    List.Pairwise (fun a b : RouteKey × Nat => b.2 ≤ a.2) (top_routes wideDf) ∧
      (top_routes wideDf).length ≤ 10 ∧
      (top_routes wideDf ++ (sorted_route_data wideDf).drop 10).Perm (route_data wideDf) ∧
      ((⟨"R", "F", "T", 11, 0, 0, 0⟩, 10) : RouteKey × Nat).2 ≤
        ((⟨"R", "F", "T", 0, 0, 0, 0⟩, 120) : RouteKey × Nat).2 := by
  have h := top_routes_sorted_top10 wideDf
  exact ⟨h.1, h.2.1, h.2.2.1,
    h.2.2.2 (⟨"R", "F", "T", 0, 0, 0, 0⟩, 120) (by decide)
      (⟨"R", "F", "T", 11, 0, 0, 0⟩, 10) (by decide)⟩

/-- The distinct Type values of a row set: the columns produced by
`.unstack()` in the Top 5 Departure Countries computation (app.py
line 101).  pandas sorts these columns alphabetically; no stated property
depends on the column order, so the model keeps the `dedup` order. -/
def typesOf (rows : List Row) : List String :=
  (rows.map Row.typ).dedup

/-- The distinct From_Country values: the index of the unstacked frame. -/
def countriesOf (rows : List Row) : List String :=
  (rows.map Row.From_Country).dedup

/-- Summed Passengers of one `(From_Country, Type)` group. -/
def pairSum (rows : List Row) (c t : String) : Nat :=
  sumWhere rows (fun r => decide (r.From_Country = c) && decide (r.typ = t))

/-- One cell of the unstacked frame before `fillna`: `none` models the NaN
that `.unstack()` inserts for a `(country, type)` combination absent from
the grouped data. -/
def cellOpt (rows : List Row) (c t : String) : Option Nat :=
  if rows.any (fun r => decide (r.From_Country = c) && decide (r.typ = t)) then
    some (pairSum rows c t)
  else none

/-- `.fillna(0)` on one cell. -/
def fillna0 : Option Nat → Nat
  | some v => v
  | none => 0

/-- A row of the filled pivot table: a country and its per-Type cells. -/
abbrev PivotRow := String × List (String × Nat)

/-- The filled pivot row of one country:
`groupby(["From_Country", "Type"]).sum().unstack().fillna(0)` restricted to
that country (app.py line 101). -/
def pivotRowOf (rows : List Row) (c : String) : PivotRow :=
  (c, (typesOf rows).map (fun t => (t, fillna0 (cellOpt rows c t))))

/-- The code's helper column `top_departure_countries["Total"] =
top_departure_countries.sum(axis=1)` (app.py line 102): the row total used
as the ranking key.  It is added, used by `sort_values`, and dropped again
(app.py line 103), so in the model it is only ever a sort key and never one
of the cells. -/
def rowTotal (pr : PivotRow) : Nat :=
  (pr.2.map Prod.snd).sum

/-- `top_departure_countries = filtered_df.groupby(["From_Country", "Type"])
["Passengers"].sum().unstack().fillna(0)`, then add `Total`, sort by it
descending, `head(5)`, drop `Total` (app.py lines 101-103). -/
def top_departure_countries (rows : List Row) : List PivotRow :=
  (List.insertionSort (byDesc rowTotal) ((countriesOf rows).map (pivotRowOf rows))).take 5

/-- C6: the Top 5 Departure Countries table has at most five rows, is
ranked by row total descending, every row carries exactly one cell per
distinct Type with no missing cell (each cell is the zero-filled group
sum), an absent combination's cell is 0, a present combination's cell is
the summed Passengers of that pair, and the ranking helper is not among the
cells (the columns are exactly the Types). -/
theorem top_departure_pivot (rows : List Row) :
    (top_departure_countries rows).length ≤ 5 ∧
    List.Pairwise (fun a b : PivotRow => rowTotal b ≤ rowTotal a) (top_departure_countries rows) ∧
    (∀ pr ∈ top_departure_countries rows,
      pr.2.map Prod.fst = typesOf rows ∧
      ∀ t ∈ typesOf rows, (t, fillna0 (cellOpt rows pr.1 t)) ∈ pr.2) ∧
    (∀ c t : String, cellOpt rows c t = none → fillna0 (cellOpt rows c t) = 0) ∧
    (∀ c t : String, (∃ r ∈ rows, r.From_Country = c ∧ r.typ = t) →
      fillna0 (cellOpt rows c t) = pairSum rows c t) := by
  refine ⟨?_, ?_, ?_, ?_, ?_⟩
  · rw [top_departure_countries]
    exact (List.length_take 5 _).le.trans (Nat.min_le_left _ _)
  · have hsorted : List.Sorted (byDesc rowTotal)
        (List.insertionSort (byDesc rowTotal) ((countriesOf rows).map (pivotRowOf rows))) :=
      List.sorted_insertionSort _ _
    exact hsorted.sublist (List.take_sublist 5 _)
  · intro pr hpr
    have hpr2 : pr ∈ (countriesOf rows).map (pivotRowOf rows) := by
      have hs : pr ∈ List.insertionSort (byDesc rowTotal)
          ((countriesOf rows).map (pivotRowOf rows)) :=
        (List.take_sublist 5 _).subset hpr
      exact (List.mem_insertionSort _).mp hs
    obtain ⟨c, _, rfl⟩ := List.mem_map.mp hpr2
    constructor
    · simp [pivotRowOf, List.map_map, Function.comp_def]
    · intro t ht
      exact List.mem_map.mpr ⟨t, ht, rfl⟩
  · intro c t h
    rw [h]
    rfl
  · intro c t h
    obtain ⟨r, hr, h1, h2⟩ := h
    have hany : rows.any (fun r => decide (r.From_Country = c) && decide (r.typ = t)) = true :=
      List.any_eq_true.mpr ⟨r, hr, by simp [h1, h2]⟩
    rw [cellOpt, if_pos hany]
    rfl

/-- C6 witness: on the spec scenario dataset, country "C1" has a row whose
columns are exactly the Types, whose absent combination ("C1", "B") is
zero-filled and whose present combination ("C1", "A") carries the group
sum. -/
theorem top_departure_pivot_witness :
    (top_departure_countries exDf).length ≤ 5 ∧
      ((pivotRowOf exDf "C1").2.map Prod.fst = typesOf exDf ∧
        ("A", fillna0 (cellOpt exDf "C1" "A")) ∈ (pivotRowOf exDf "C1").2) ∧
      fillna0 (cellOpt exDf "C1" "B") = 0 ∧
      fillna0 (cellOpt exDf "C1" "A") = pairSum exDf "C1" "A" := by
  have h := top_departure_pivot exDf
  have hmem : pivotRowOf exDf "C1" ∈ top_departure_countries exDf := by decide
  refine ⟨h.1, ?_, ?_, ?_⟩
  · have h3 := h.2.2.1 (pivotRowOf exDf "C1") hmem
    exact ⟨h3.1, h3.2 "A" (by decide)⟩
  · exact h.2.2.2.1 "C1" "B" (by decide)
  · exact h.2.2.2.2 "C1" "A"
      ⟨⟨"R1", "F1", "T1", "C1", 2020, "A", 10, 1, 2, 3, 4⟩, by decide, rfl, rfl⟩
